import Mathlib

/-!
Verification of the chemkit OPLS force-field engine
(`OplsForceField::OplsForceField` and `OplsForceField::setup`) and of the
`GraphicsTransform` matrix operations (`graphicstransform.cpp`), as a shallow
embedding in Lean 4.  The force-field base class (`chemkit::ForceField`), the
topology accessors and the per-calculation setup live outside the provided
sources; those parts are modelled from the specification and marked as such.
-/

namespace Chemkit

/-- The four concrete calculation kinds of the OPLS force field:
`OplsBondStrechCalculation`, `OplsAngleBendCalculation`,
`OplsTorsionCalculation`, `OplsNonbondedCalculation`. -/
inductive CalcKind where
  | bondStrech
  | angleBend
  | torsion
  | nonbonded
deriving DecidableEq, Repr

/-- `chemkit::Topology`, consumed read-only: four ordered sequences of
fixed-arity atom-index tuples (bonded pairs, angle triples, torsion
quadruples, nonbonded pairs). -/
structure Topology where
  bondedInteractions : List (Nat × Nat)
  angleInteractions : List (Nat × Nat × Nat)
  torsionInteractions : List (Nat × Nat × Nat × Nat)
  nonbondedInteractions : List (Nat × Nat)
deriving DecidableEq

/-- A force-field calculation: a kind discriminant, the ordered atom-index
tuple, the engine-recorded is-set-up flag, and the coefficients bound by a
successful per-calculation setup. -/
structure Calculation where
  kind : CalcKind
  atoms : List Nat
  isSetUp : Bool
  coefficients : List ℚ
deriving DecidableEq

/-- Modelled from the spec: the parameter table composed with the atom typer,
as a single best-match lookup from a calculation kind and atom-index tuple to
a coefficient set (`lookup(kind, typeKey) -> ParameterRecord | NotFound`);
the table sources (`OplsParameters`, `OplsAtomTyper`) are not under src/. -/
def ParamTable : Type := CalcKind → List Nat → Option (List ℚ)

/-- Modelled from the spec: `OplsCalculation::setup(parameters)` (not under
src/): derives the type key, performs a table lookup, on success copies the
matched coefficients into the calculation and returns true; returns false,
leaving the calculation unbound, when no record matches or when no parameter
table is available. -/
def Calculation.trySetup (params : Option ParamTable) (c : Calculation) :
    Calculation × Bool :=
  match params with
  | none => (c, false)
  | some table =>
    match table c.kind c.atoms with
    | some coeffs => ({ c with isSetUp := true, coefficients := coeffs }, true)
    | none => (c, false)

/-- `chemkit::ForceField` capability flags; the source sets
`chemkit::ForceField::AnalyticalGradient`. -/
inductive Flag where
  | analyticalGradient
deriving DecidableEq

/-- The engine state: the optionally attached topology, the ordered
calculation collection, the flags word, and the (possibly null) pointer to
the loaded parameter table (`m_parameters`). -/
structure OplsForceField where
  topology : Option Topology
  calculations : List Calculation
  flags : List Flag
  parameters : Option ParamTable

/-- `OplsForceField::OplsForceField()` (part_000 lines 50-60): starts with a
null parameter table, sets the `AnalyticalGradient` flag, then looks up the
"opls" plugin and, when present, constructs the parameter table from the
plugin's data path.  The argument models the plugin lookup and load outcome:
`none` when the plugin (hence the parameter file) cannot be located. -/
def OplsForceField.construct (loaded : Option ParamTable) : OplsForceField :=
  { topology := none
    calculations := []
    flags := [Flag.analyticalGradient]
    parameters := loaded }

/-- Modelled from the spec: `chemkit::ForceField::setTopology` (base class
not under src/), attaching a topology to the engine. -/
def OplsForceField.setTopology (ff : OplsForceField) (t : Topology) :
    OplsForceField :=
  { ff with topology := some t }

/-- The four enumeration loops of `OplsForceField::setup` (part_000 lines
75-96): one calculation per interaction tuple, bonded then angle then torsion
then nonbonded, each sequence in the topology's given order
(`ForceField::addCalculation`, not under src/, appends to the engine's
ordered collection, as the spec states). -/
def buildCalculations (t : Topology) : List Calculation :=
  (t.bondedInteractions.map fun p =>
    { kind := CalcKind.bondStrech, atoms := [p.1, p.2],
      isSetUp := false, coefficients := [] })
  ++ (t.angleInteractions.map fun p =>
    { kind := CalcKind.angleBend, atoms := [p.1, p.2.1, p.2.2],
      isSetUp := false, coefficients := [] })
  ++ (t.torsionInteractions.map fun p =>
    { kind := CalcKind.torsion, atoms := [p.1, p.2.1, p.2.2.1, p.2.2.2],
      isSetUp := false, coefficients := [] })
  ++ (t.nonbondedInteractions.map fun p =>
    { kind := CalcKind.nonbonded, atoms := [p.1, p.2],
      isSetUp := false, coefficients := [] })

/-- One iteration of the setup loop (part_000 lines 100-108): the
per-calculation setup, followed by `setCalculationSetup` recording the
returned boolean as the calculation's is-set-up flag. -/
def setupStep (params : Option ParamTable) (c : Calculation) :
    Calculation × Bool :=
  let r := Calculation.trySetup params c
  ({ r.1 with isSetUp := r.2 }, r.2)

/-- The setup loop over the whole collection (part_000 lines 98-108): every
calculation is processed in order with no short-circuit; `ok` starts true and
is cleared by any failure. -/
def setupLoop (params : Option ParamTable) :
    List Calculation → List Calculation × Bool
  | [] => ([], true)
  | c :: rest =>
    let r := setupStep params c
    let rs := setupLoop params rest
    (r.1 :: rs.1, r.2 && rs.2)

/-- `OplsForceField::setup()` (part_000 lines 68-111): returns false at once
when no topology is attached; otherwise appends the enumerated calculations,
runs the per-calculation setup loop over the whole collection, and returns
the conjunction of the individual outcomes. -/
def OplsForceField.setup (ff : OplsForceField) : OplsForceField × Bool :=
  match ff.topology with
  | none => (ff, false)
  | some t =>
    let calcs := ff.calculations ++ buildCalculations t
    let r := setupLoop ff.parameters calcs
    ({ ff with calculations := r.1 }, r.2)

/-- Modelled from the spec: `ForceField::compute` (base class not under
src/) sums energy over only the calculations whose is-set-up flag is true; a
read-only query of the engine state, parameterised by the per-calculation
energy evaluation. -/
def OplsForceField.compute (energy : Calculation → ℚ) (ff : OplsForceField) :
    ℚ :=
  ((ff.calculations.filter fun c => c.isSetUp).map energy).sum

-- Basic lemmas about the setup loop.

lemma setupLoop_cons (params : Option ParamTable) (c : Calculation)
    (l : List Calculation) :
    setupLoop params (c :: l) =
      ((setupStep params c).1 :: (setupLoop params l).1,
        (setupStep params c).2 && (setupLoop params l).2) := rfl

lemma setupStep_snd (params : Option ParamTable) (c : Calculation) :
    (setupStep params c).2 = (Calculation.trySetup params c).2 := rfl

lemma setupStep_isSetUp (params : Option ParamTable) (c : Calculation) :
    (setupStep params c).1.isSetUp = (Calculation.trySetup params c).2 := rfl

lemma setupStep_kind (params : Option ParamTable) (c : Calculation) :
    (setupStep params c).1.kind = c.kind := by
  rcases params with _ | table
  · rfl
  · simp only [setupStep, Calculation.trySetup]
    rcases h : table c.kind c.atoms with _ | coeffs <;> simp [h]

lemma setupStep_atoms (params : Option ParamTable) (c : Calculation) :
    (setupStep params c).1.atoms = c.atoms := by
  rcases params with _ | table
  · rfl
  · simp only [setupStep, Calculation.trySetup]
    rcases h : table c.kind c.atoms with _ | coeffs <;> simp [h]

lemma setupLoop_fst (params : Option ParamTable) (l : List Calculation) :
    (setupLoop params l).1 = l.map fun c => (setupStep params c).1 := by
  induction l with
  | nil => rfl
  | cons c rest ih => simp [setupLoop_cons, ih]

lemma setupLoop_snd (params : Option ParamTable) (l : List Calculation) :
    (setupLoop params l).2 = l.all fun c => (setupStep params c).2 := by
  induction l with
  | nil => rfl
  | cons c rest ih => simp [setupLoop_cons, ih]

lemma setupLoop_append (params : Option ParamTable) (a b : List Calculation) :
    setupLoop params (a ++ b) =
      ((setupLoop params a).1 ++ (setupLoop params b).1,
        (setupLoop params a).2 && (setupLoop params b).2) := by
  induction a with
  | nil => simp [setupLoop]
  | cons c rest ih => simp [setupLoop_cons, ih, Bool.and_assoc]

lemma setupStep_idem (params : Option ParamTable) (c : Calculation) :
    setupStep params (setupStep params c).1 = setupStep params c := by
  rcases params with _ | table
  · cases c; rfl
  · simp only [setupStep, Calculation.trySetup]
    rcases h : table c.kind c.atoms with _ | coeffs <;> simp [h]

lemma map_kindAtoms_setupStep (params : Option ParamTable)
    (l : List Calculation) :
    ((l.map fun c => (setupStep params c).1).map fun c => (c.kind, c.atoms)) =
      l.map fun c => (c.kind, c.atoms) := by
  induction l with
  | nil => rfl
  | cons c rest ih => simp [ih, setupStep_kind, setupStep_atoms]

lemma setupLoop_idem (params : Option ParamTable) (l : List Calculation) :
    setupLoop params (setupLoop params l).1 = setupLoop params l := by
  induction l with
  | nil => rfl
  | cons c rest ih =>
    simp only [setupLoop_cons, setupStep_idem, ih]

-- Concrete inputs used by witnesses and counterexamples.

/-- A total parameter table: every lookup matches, with coefficient set [1]. -/
def tblAll : ParamTable := fun _ _ => some [1]

/-- A table with a single missing record: the tuple [0, 1] has no entry. -/
def tblMiss : ParamTable := fun _ atoms => if atoms = [0, 1] then none else some [1]

/-- A topology with one bonded pair. -/
def tBond : Topology :=
  { bondedInteractions := [(0, 1)], angleInteractions := [],
    torsionInteractions := [], nonbondedInteractions := [] }

/-- A topology with two bonded pairs. -/
def tTwoBonds : Topology :=
  { bondedInteractions := [(0, 1), (1, 2)], angleInteractions := [],
    torsionInteractions := [], nonbondedInteractions := [] }

/-- A topology with one interaction of each kind. -/
def tFull : Topology :=
  { bondedInteractions := [(0, 1)], angleInteractions := [(0, 1, 2)],
    torsionInteractions := [(0, 1, 2, 3)], nonbondedInteractions := [(2, 3)] }

/-- The empty topology: an isolated-atom system. -/
def tEmpty : Topology :=
  { bondedInteractions := [], angleInteractions := [],
    torsionInteractions := [], nonbondedInteractions := [] }

/-- An engine over the full topology with the total table. -/
def eFull : OplsForceField :=
  (OplsForceField.construct (some tblAll)).setTopology tFull

/-- An engine over the one-bond topology with the total table. -/
def eBond : OplsForceField :=
  (OplsForceField.construct (some tblAll)).setTopology tBond

/-- An engine over the two-bond topology with the one-hole table. -/
def eTwo : OplsForceField :=
  (OplsForceField.construct (some tblMiss)).setTopology tTwoBonds

/-- An engine over the empty topology with the total table. -/
def eEmpty : OplsForceField :=
  (OplsForceField.construct (some tblAll)).setTopology tEmpty

/-- An engine whose parameter load failed, over the one-bond topology. -/
def eNoTable : OplsForceField :=
  (OplsForceField.construct none).setTopology tBond

-- Claim theorems.

/-- C1 (enumeration fidelity): for every attached topology, `setup` creates
exactly B+A+T+N calculations, bonded then angle then torsion then nonbonded,
each sequence in the topology's given order, and each calculation carries the
kind and atom-index tuple of its source interaction tuple. -/
theorem setup_enumeration_fidelity (ff : OplsForceField) (t : Topology)
    (h : ff.topology = some t) (h0 : ff.calculations = []) :
    ((ff.setup).1.calculations.map fun c => (c.kind, c.atoms)) =
      (t.bondedInteractions.map fun p => (CalcKind.bondStrech, [p.1, p.2]))
      ++ (t.angleInteractions.map fun p =>
            (CalcKind.angleBend, [p.1, p.2.1, p.2.2]))
      ++ (t.torsionInteractions.map fun p =>
            (CalcKind.torsion, [p.1, p.2.1, p.2.2.1, p.2.2.2]))
      ++ (t.nonbondedInteractions.map fun p =>
            (CalcKind.nonbonded, [p.1, p.2]))
    ∧ (ff.setup).1.calculations.length =
      t.bondedInteractions.length + t.angleInteractions.length
        + t.torsionInteractions.length + t.nonbondedInteractions.length := by
  constructor
  · simp only [OplsForceField.setup, h, h0, List.nil_append, setupLoop_fst]
    rw [map_kindAtoms_setupStep]
    simp [buildCalculations, Function.comp_def]
  · simp [OplsForceField.setup, h, h0, setupLoop_fst, buildCalculations]
    omega

/-- Witness for C1: the full one-of-each topology with a total table. -/
theorem setup_enumeration_fidelity_witness :
    eFull.topology = some tFull ∧ eFull.calculations = [] ∧
    (((eFull.setup).1.calculations.map fun c => (c.kind, c.atoms)) =
      (tFull.bondedInteractions.map fun p => (CalcKind.bondStrech, [p.1, p.2]))
      ++ (tFull.angleInteractions.map fun p =>
            (CalcKind.angleBend, [p.1, p.2.1, p.2.2]))
      ++ (tFull.torsionInteractions.map fun p =>
            (CalcKind.torsion, [p.1, p.2.1, p.2.2.1, p.2.2.2]))
      ++ (tFull.nonbondedInteractions.map fun p =>
            (CalcKind.nonbonded, [p.1, p.2]))
    ∧ (eFull.setup).1.calculations.length =
      tFull.bondedInteractions.length + tFull.angleInteractions.length
        + tFull.torsionInteractions.length
        + tFull.nonbondedInteractions.length) :=
  ⟨rfl, rfl, setup_enumeration_fidelity eFull tFull rfl rfl⟩

/-- C2: with a topology attached, `setup` returns true if and only if the
per-calculation setup succeeded for every enumerated calculation. -/
theorem setup_ok_iff_all (ff : OplsForceField) (t : Topology)
    (h : ff.topology = some t) (h0 : ff.calculations = []) :
    (ff.setup).2 = true ↔
      ∀ c ∈ buildCalculations t,
        (Calculation.trySetup ff.parameters c).2 = true := by
  simp [OplsForceField.setup, h, h0, setupLoop_snd, setupStep_snd,
    List.all_eq_true]

/-- Witness for C2: the one-bond topology with a total table. -/
theorem setup_ok_iff_all_witness :
    eBond.topology = some tBond ∧ eBond.calculations = [] ∧
    ((eBond.setup).2 = true ↔
      ∀ c ∈ buildCalculations tBond,
        (Calculation.trySetup eBond.parameters c).2 = true) :=
  ⟨rfl, rfl, setup_ok_iff_all eBond tBond rfl rfl⟩

/-- C3 (partial-failure isolation): `setup` invokes per-calculation setup on
every enumerated calculation with no short-circuit, records each boolean
result as that calculation's is-set-up flag, discards nothing — the final
count equals the total enumerated — and returns the conjunction of the
individual outcomes. -/
theorem setup_partial_failure_isolation (ff : OplsForceField) (t : Topology)
    (h : ff.topology = some t) (h0 : ff.calculations = []) :
    ((ff.setup).1.calculations.map fun c => c.isSetUp) =
      ((buildCalculations t).map fun c =>
        (Calculation.trySetup ff.parameters c).2)
    ∧ (ff.setup).1.calculations.length = (buildCalculations t).length
    ∧ (ff.setup).2 = ((buildCalculations t).all fun c =>
        (Calculation.trySetup ff.parameters c).2) := by
  refine ⟨?_, ?_, ?_⟩ <;>
    simp [OplsForceField.setup, h, h0, setupLoop_fst, setupLoop_snd,
      List.map_map, setupStep_isSetUp, setupStep_snd, Function.comp]

/-- Witness for C3: two bonds where exactly the first tuple has no table
entry; the failing calculation is recorded unbound, the other bound. -/
theorem setup_partial_failure_isolation_witness :
    eTwo.topology = some tTwoBonds ∧ eTwo.calculations = [] ∧
    (((eTwo.setup).1.calculations.map fun c => c.isSetUp) =
      ((buildCalculations tTwoBonds).map fun c =>
        (Calculation.trySetup eTwo.parameters c).2)
    ∧ (eTwo.setup).1.calculations.length =
        (buildCalculations tTwoBonds).length
    ∧ (eTwo.setup).2 = ((buildCalculations tTwoBonds).all fun c =>
        (Calculation.trySetup eTwo.parameters c).2)) :=
  ⟨rfl, rfl, setup_partial_failure_isolation eTwo tTwoBonds rfl rfl⟩

/-- C4: with no topology attached, `setup` returns false immediately and the
engine state — in particular its calculation collection — is unchanged. -/
theorem setup_no_topology (ff : OplsForceField) (h : ff.topology = none) :
    ff.setup = (ff, false) := by
  simp [OplsForceField.setup, h]

/-- Witness for C4: a freshly constructed engine has no topology. -/
theorem setup_no_topology_witness :
    (OplsForceField.construct (some tblAll)).topology = none ∧
    (OplsForceField.construct (some tblAll)).setup =
      (OplsForceField.construct (some tblAll), false) :=
  ⟨rfl, setup_no_topology (OplsForceField.construct (some tblAll)) rfl⟩

/-- C7: with an attached topology whose four interaction sequences are all
empty, `setup` succeeds, the calculation collection is empty, and compute
returns zero energy. -/
theorem setup_empty_topology (ff : OplsForceField) (t : Topology)
    (h : ff.topology = some t) (h0 : ff.calculations = [])
    (hb : t.bondedInteractions = []) (ha : t.angleInteractions = [])
    (htor : t.torsionInteractions = []) (hn : t.nonbondedInteractions = []) :
    (ff.setup).2 = true ∧ (ff.setup).1.calculations = []
    ∧ ∀ energy, OplsForceField.compute energy (ff.setup).1 = 0 := by
  have hbuild : buildCalculations t = [] := by
    simp [buildCalculations, hb, ha, htor, hn]
  refine ⟨?_, ?_, ?_⟩ <;>
    simp [OplsForceField.setup, h, h0, hbuild, setupLoop,
      OplsForceField.compute]

/-- Witness for C7: the empty topology. -/
theorem setup_empty_topology_witness :
    eEmpty.topology = some tEmpty ∧ eEmpty.calculations = [] ∧
    tEmpty.bondedInteractions = [] ∧ tEmpty.angleInteractions = [] ∧
    tEmpty.torsionInteractions = [] ∧ tEmpty.nonbondedInteractions = [] ∧
    ((eEmpty.setup).2 = true ∧ (eEmpty.setup).1.calculations = []
      ∧ ∀ energy, OplsForceField.compute energy (eEmpty.setup).1 = 0) :=
  ⟨rfl, rfl, rfl, rfl, rfl, rfl,
    setup_empty_topology eEmpty tEmpty rfl rfl rfl rfl rfl rfl⟩

/-- C8: the `AnalyticalGradient` flag is set at construction — whether or not
a parameter table was loaded — and neither attaching a topology nor `setup`
ever changes the flags word (compute is a read-only query). -/
theorem analytical_gradient_flag (loaded : Option ParamTable)
    (ff : OplsForceField) (t : Topology) :
    Flag.analyticalGradient ∈ (OplsForceField.construct loaded).flags
    ∧ (ff.setup).1.flags = ff.flags
    ∧ (ff.setTopology t).flags = ff.flags := by
  refine ⟨by simp [OplsForceField.construct], ?_, rfl⟩
  rcases h : ff.topology with _ | t'
  · simp [OplsForceField.setup, h]
  · simp [OplsForceField.setup, h]

/-- C5 counterexample: with one bonded pair and a total table, the collection
holds 1 calculation after the first `setup` call and 2 after the second —
the second call does not discard and rebuild, it appends. -/
theorem resetup_size_counterexample :
    ((eBond.setup).1.setup).1.calculations.length ≠
      (eBond.setup).1.calculations.length
    ∧ (eBond.setup).1.calculations.length = 1
    ∧ ((eBond.setup).1.setup).1.calculations.length = 2 := by
  have h1 : (eBond.setup).1.calculations.length = 1 := rfl
  have h2 : ((eBond.setup).1.setup).1.calculations.length = 2 := rfl
  exact ⟨by rw [h1, h2]; decide, h1, h2⟩

/-- C5 amended: a second `setup` call does not discard the previous
collection; it appends a fresh enumeration and re-runs per-calculation setup
over everything, so with the same topology and table the collection after the
second call is the first collection followed by a copy of itself, and the
returned boolean is unchanged. -/
theorem setup_twice_appends (ff : OplsForceField) (t : Topology)
    (h : ff.topology = some t) (h0 : ff.calculations = []) :
    ((ff.setup).1.setup).1.calculations =
      (ff.setup).1.calculations ++ (ff.setup).1.calculations
    ∧ ((ff.setup).1.setup).2 = (ff.setup).2 := by
  simp only [OplsForceField.setup, h, h0, List.nil_append]
  refine ⟨?_, ?_⟩
  · rw [setupLoop_append, setupLoop_idem]
  · rw [setupLoop_append, setupLoop_idem, Bool.and_self]

/-- Witness for the C5 amended claim at the one-bond engine. -/
theorem setup_twice_appends_witness :
    eBond.topology = some tBond ∧ eBond.calculations = [] ∧
    (((eBond.setup).1.setup).1.calculations =
      (eBond.setup).1.calculations ++ (eBond.setup).1.calculations
    ∧ ((eBond.setup).1.setup).2 = (eBond.setup).2) :=
  ⟨rfl, rfl, setup_twice_appends eBond tBond rfl rfl⟩

/-- C6 counterexample: when the parameter table cannot be located (the
plugin lookup fails), the constructor nevertheless completes — producing the
engine with a null table and the `AnalyticalGradient` flag set — and the
engine even remains usable (`setup` on an empty topology succeeds).
Construction does not fail. -/
theorem construct_without_table_counterexample :
    OplsForceField.construct none =
      { topology := none, calculations := [],
        flags := [Flag.analyticalGradient], parameters := none }
    ∧ (((OplsForceField.construct none).setTopology tEmpty).setup).2 = true :=
  ⟨rfl, rfl⟩

/-- C6 amended: a parameter-table load failure is not fatal to engine
construction; the engine is constructed with a null table, and the failure
surfaces as per-term degradation: every enumerated calculation's setup fails,
so `setup` succeeds only when the topology enumerates no interactions. -/
theorem load_failure_degrades (ff : OplsForceField) (t : Topology)
    (hp : ff.parameters = none) (h : ff.topology = some t)
    (h0 : ff.calculations = []) :
    (∀ c ∈ (ff.setup).1.calculations, c.isSetUp = false)
    ∧ ((ff.setup).2 = true ↔ buildCalculations t = []) := by
  constructor
  · intro c hc
    simp only [OplsForceField.setup, h, h0, List.nil_append,
      setupLoop_fst, List.mem_map] at hc
    rcases hc with ⟨a, _, rfl⟩
    rw [setupStep_isSetUp, hp]
    rfl
  · simp only [OplsForceField.setup, h, h0, List.nil_append, setupLoop_snd,
      List.all_eq_true, setupStep_snd, hp]
    cases hb : buildCalculations t with
    | nil => simp
    | cons c rest =>
      simp only [Calculation.trySetup]
      constructor
      · intro hall
        exact absurd (hall c (by simp)) (by simp)
      · intro hnil
        simp at hnil

/-- Witness for the C6 amended claim: a table-less engine over one bond. -/
theorem load_failure_degrades_witness :
    eNoTable.parameters = none ∧ eNoTable.topology = some tBond ∧
    eNoTable.calculations = [] ∧
    ((∀ c ∈ (eNoTable.setup).1.calculations, c.isSetUp = false)
      ∧ ((eNoTable.setup).2 = true ↔ buildCalculations tBond = [])) :=
  ⟨rfl, rfl, rfl, load_failure_degrades eNoTable tBond rfl rfl rfl⟩

-- GraphicsTransform (src/src/graphics/graphicstransform.cpp), embedded over ℝ.

/-- `chemkit::Point3f`: a 3D point. -/
structure Point3f where
  x : ℝ
  y : ℝ
  z : ℝ

/-- `chemkit::Vector3f`: a 3D vector. -/
structure Vector3f where
  x : ℝ
  y : ℝ
  z : ℝ

/-- `chemkit::GraphicsTransform`: a 4x4 transformation matrix. -/
structure GraphicsTransform where
  m : Fin 4 → Fin 4 → ℝ

/-- `GraphicsTransform::GraphicsTransform()` (lines 67-73): the default
constructor sets the transformation matrix to all zeros. -/
def GraphicsTransform.empty : GraphicsTransform := ⟨fun _ _ => 0⟩

/-- `GraphicsTransform::identity()` (lines 257-262). -/
def GraphicsTransform.identity : GraphicsTransform :=
  ⟨fun i j => if i = j then 1 else 0⟩

/-- `GraphicsTransform::multiplyPoint` (lines 131-142): extends the point to
a homogeneous 4-vector with last component 1, multiplies by the matrix, and
returns the first three components. -/
def GraphicsTransform.multiplyPoint (t : GraphicsTransform) (p : Point3f) :
    Point3f :=
  let w : Fin 4 → ℝ := fun i =>
    t.m i 0 * p.x + t.m i 1 * p.y + t.m i 2 * p.z + t.m i 3 * 1
  { x := w 0, y := w 1, z := w 2 }

/-- `GraphicsTransform::multiplyVector` (lines 145-156): as `multiplyPoint`
but with last homogeneous component 0. -/
def GraphicsTransform.multiplyVector (t : GraphicsTransform) (v : Vector3f) :
    Vector3f :=
  let w : Fin 4 → ℝ := fun i =>
    t.m i 0 * v.x + t.m i 1 * v.y + t.m i 2 * v.z + t.m i 3 * 0
  { x := w 0, y := w 1, z := w 2 }

/-- `chemkit::constants::DegreesToRadians` (chemkit/constants.h, consumed by
the source): the factor pi / 180. -/
noncomputable def degreesToRadians : ℝ := Real.pi / 180

/-- `GraphicsTransform::rotation(axis, angle)` (lines 294-313): normalizes
the axis, converts the angle from degrees to radians before evaluating sin
and cos, and fills the upper-left 3x3 block of an identity matrix. -/
noncomputable def GraphicsTransform.rotation (axis : Vector3f) (angle : ℝ) :
    GraphicsTransform :=
  let n := Real.sqrt (axis.x * axis.x + axis.y * axis.y + axis.z * axis.z)
  let vx := axis.x / n
  let vy := axis.y / n
  let vz := axis.z / n
  let c := Real.cos (angle * degreesToRadians)
  let s := Real.sin (angle * degreesToRadians)
  { m := ![![vx * vx + (1 - vx * vx) * c, vx * vy * (1 - c) - vz * s,
             vx * vz * (1 - c) + vy * s, 0],
           ![vx * vy * (1 - c) + vz * s, vy * vy + (1 - vy * vy) * c,
             vy * vz * (1 - c) - vx * s, 0],
           ![vx * vz * (1 - c) - vy * s, vy * vz * (1 - c) + vx * s,
             vz * vz + (1 - vz * vz) * c, 0],
           ![0, 0, 0, 1]] }

/-- `GraphicsTransform::perspective(angle, aspectRatio, nearDistance,
farDistance)` (lines 332-345): starts from the all-zero default matrix and
sets f = 1 / tan(angle / 2) with no degree-to-radian conversion. -/
noncomputable def GraphicsTransform.perspective
    (angle aspect nearDistance farDistance : ℝ) : GraphicsTransform :=
  let f := 1 / Real.tan (angle / 2)
  { m := ![![f / aspect, 0, 0, 0],
           ![0, f, 0, 0],
           ![0, 0, (nearDistance + farDistance) / (nearDistance - farDistance),
             2 * nearDistance * farDistance / (nearDistance - farDistance)],
           ![0, 0, -1, 0]] }

/-- C9: a default-constructed GraphicsTransform is the all-zero matrix, so
`multiplyPoint` and `multiplyVector` return the zero point and zero vector on
every input; the default is not the identity transform. -/
theorem default_transform_is_zero :
    (∀ p : Point3f, GraphicsTransform.empty.multiplyPoint p = ⟨0, 0, 0⟩)
    ∧ (∀ v : Vector3f, GraphicsTransform.empty.multiplyVector v = ⟨0, 0, 0⟩)
    ∧ GraphicsTransform.empty ≠ GraphicsTransform.identity := by
  refine ⟨?_, ?_, ?_⟩
  · intro p
    simp [GraphicsTransform.multiplyPoint, GraphicsTransform.empty]
  · intro v
    simp [GraphicsTransform.multiplyVector, GraphicsTransform.empty]
  · intro hEq
    have h00 := congrFun (congrFun (congrArg GraphicsTransform.m hEq) 0) 0
    simp [GraphicsTransform.empty, GraphicsTransform.identity] at h00

/-- C10: the two angle-taking constructors use different unit conventions.
Rotation about the z axis by the parameter value 180 yields cos pi = -1 and
sin pi = 0 in the upper block (the parameter is degrees, multiplied by
DegreesToRadians), while `perspective` with the parameter value pi / 2 yields
f = 1 / tan(pi / 4) = 1 (the parameter is radians, halved with no
conversion). -/
theorem rotation_degrees_perspective_radians :
    (GraphicsTransform.rotation ⟨0, 0, 1⟩ 180).m 0 0 = -1
    ∧ (GraphicsTransform.rotation ⟨0, 0, 1⟩ 180).m 1 0 = 0
    ∧ (GraphicsTransform.perspective (Real.pi / 2) 1 1 2).m 1 1 = 1 := by
  have hpi : (180 : ℝ) * degreesToRadians = Real.pi := by
    rw [degreesToRadians]
    field_simp
  have hnorm : Real.sqrt ((0 : ℝ) * 0 + 0 * 0 + 1 * 1) = 1 := by
    rw [show (0 : ℝ) * 0 + 0 * 0 + 1 * 1 = 1 by norm_num, Real.sqrt_one]
  refine ⟨?_, ?_, ?_⟩
  · show (0 : ℝ) / Real.sqrt (0 * 0 + 0 * 0 + 1 * 1) *
        (0 / Real.sqrt (0 * 0 + 0 * 0 + 1 * 1)) +
        (1 - 0 / Real.sqrt (0 * 0 + 0 * 0 + 1 * 1) *
          (0 / Real.sqrt (0 * 0 + 0 * 0 + 1 * 1))) *
          Real.cos (180 * degreesToRadians) = -1
    rw [hnorm, hpi, Real.cos_pi]
    norm_num
  · show (0 : ℝ) / Real.sqrt (0 * 0 + 0 * 0 + 1 * 1) *
        (0 / Real.sqrt (0 * 0 + 0 * 0 + 1 * 1)) *
        (1 - Real.cos (180 * degreesToRadians)) +
        1 / Real.sqrt (0 * 0 + 0 * 0 + 1 * 1) *
          Real.sin (180 * degreesToRadians) = 0
    rw [hnorm, hpi, Real.sin_pi]
    norm_num
  · show (1 : ℝ) / Real.tan (Real.pi / 2 / 2) = 1
    rw [show Real.pi / 2 / 2 = Real.pi / 4 by ring, Real.tan_pi_div_four]
    norm_num

end Chemkit
